import Mathlib

/-!
Shallow embedding of the `terkoizmy/golearn` user service.

The embedding follows the Go sources:
* `services/user/domain` (the `User` entity and request/response shapes),
* `services/user/repository/user_repository.go` (directory over a GORM store),
* the service layer `userService` (Register, Login, GetUserByID, ValidateToken),
* the HTTP and gRPC handlers,
* `internal/config` (configuration loading).

The store is modelled as a `List User` with the schema's unique index on
`email` and the `BeforeCreate` UUID hook made explicit (the fresh identifier,
the current time and the bcrypt salt are passed as parameters, making the
code's nondeterminism explicit).  Go `error` values are modelled by the
inductive `Err`, with `Err.wrapped` playing the role of `fmt.Errorf` with the
`%w` verb and `Err.is` playing the role of `errors.Is`.

The credential codec (`util.HashPassword` / `util.CheckPassword`) and the
token codec (`util.GenerateJWT` / `util.ValidateJWT`) live in
`internal/util`, which is not part of the provided tree; those four
definitions are modelled from the spec, as their doc comments state.
-/

deriving instance DecidableEq for Except

namespace GoLearn

/-- Decode failure kinds of the Token Codec.
Modelled from the spec: `Decode` fails with one of three coarse kinds
(malformed, signature-invalid, expired); the codec source in
`internal/util` is missing from the tree. -/
inductive TokenError where
  | malformed
  | signatureInvalid
  | expired
deriving DecidableEq

/-- Error message text of a token decode failure, standing for the
`Error()` string of the underlying error value. The three kinds carry
three distinct messages. -/
def TokenError.message : TokenError → String
  | .malformed => "token is malformed"
  | .signatureInvalid => "signature is invalid"
  | .expired => "token is expired"

/-- GORM-level storage errors observed by the repository:
`gorm.ErrDuplicatedKey` and `gorm.ErrRecordNotFound`. -/
inductive DbError where
  | duplicatedKey
  | recordNotFound
deriving DecidableEq

/-- Go `error` values flowing through the service, as a closed inductive:
the three sentinel errors (`repository.ErrDuplicateEmail`,
`repository.ErrUserNotFound`, `service.ErrInvalidCredentials`), token
decode errors returned by `util.ValidateJWT`, raw GORM errors passed
through by the repository, and `fmt.Errorf("...: %w", inner)` wrapping. -/
inductive Err where
  | duplicateEmail
  | userNotFound
  | invalidCredentials
  | tokenErr (te : TokenError)
  | gormErr (ge : DbError)
  | wrapped (msg : String) (inner : Err)
deriving DecidableEq

/-- Model of `errors.Is e target`: compare against the target at each level
of the `%w` wrapping chain. -/
def Err.is : Err → Err → Bool
  | .wrapped m inner, t => (Err.wrapped m inner == t) || Err.is inner t
  | e, t => e == t

/-- Model of `err.Error()`: the message text of an error value. -/
def Err.message : Err → String
  | .duplicateEmail => "email already exists"
  | .userNotFound => "user not found"
  | .invalidCredentials => "invalid email or password"
  | .tokenErr te => te.message
  | .gormErr .duplicatedKey => "duplicated key not allowed"
  | .gormErr .recordNotFound => "record not found"
  | .wrapped m inner => m ++ ": " ++ inner.message

/-- A stored credential-hash value, as held in the `Password` column.
Modelled from the spec: the Credential Codec's output is a self-describing
salted digest (algorithm tag, salt, digest); any other stored text —
including the cleared empty string — is `raw` and verifies against
nothing. -/
inductive Hash where
  | raw (s : String)
  | digestOf (algo : String) (salt : Nat) (dig : Nat)
deriving DecidableEq

/-- The cleared password value: the Go code clears the field by assigning
the empty string. -/
def Hash.cleared : Hash := .raw ""

/-- Modelled from the spec: the one-way digest at the heart of the
Credential Codec (`internal/util` is missing from the tree).  The concrete
mixing function is a stand-in; what matters is that it is a function of the
salt and the plaintext. -/
def util.digest (salt : Nat) (p : String) : Nat :=
  p.data.foldl (fun a c => a * 31 + c.toNat + 1) (salt + 7)

/-- Modelled from the spec: `util.HashPassword` produces a self-describing
salted digest; the salt drawn from the entropy source is made an explicit
parameter.  Entropy failure (`HashingFailure`) is not modelled: the model
codec is total. -/
def util.HashPassword (salt : Nat) (p : String) : Hash :=
  .digestOf "bcrypt" salt (util.digest salt p)

/-- Modelled from the spec: `util.CheckPassword` recomputes the digest
under the stored parameters and compares; it returns `false` on any
mismatch, malformed stored value, or algorithm tag other than the one the
codec produces — it never fails. -/
def util.CheckPassword (p : String) (h : Hash) : Bool :=
  match h with
  | .digestOf a s d => a == "bcrypt" && util.digest s p == d
  | .raw _ => false

/-- JWT claims carried by a session token: subject identifier, email,
issued-at and expiry instants (seconds). -/
structure Claims where
  userID : String
  email : String
  issuedAt : Nat
  expiresAt : Nat
deriving DecidableEq

/-- A session token: either a structurally well-formed signed token —
payload claims plus an HMAC signature, modelled symbolically as the pair
(claims, secret) the signature was computed over — or malformed text.
`Token.malformed ""` doubles as the empty wire string. -/
inductive Token where
  | signed (claims : Claims) (sigClaims : Claims) (sigSecret : String)
  | malformed (raw : String)
deriving DecidableEq

/-- Token lifetime. Modelled from the spec: a fixed policy duration
(24 hours, in seconds) added to the issuance instant. -/
def tokenLifetime : Nat := 24 * 60 * 60

/-- Modelled from the spec: `util.GenerateJWT` embeds the subject identity
and an expiry a fixed duration after issuance, and signs over the signing
secret.  The issuance instant `now` is an explicit parameter; issuance
failure (`IssuanceFailure`) is an entropy/infrastructure fault and is not
modelled: the model codec is total. -/
def util.GenerateJWT (now : Nat) (userID email secret : String) : Token :=
  let c : Claims := ⟨userID, email, now, now + tokenLifetime⟩
  .signed c c secret

/-- Modelled from the spec: `util.ValidateJWT` checks structural
well-formedness first, then the signature, then expiry, short-circuiting
at the first failure; a token is expired once its expiry instant lies
strictly in the past. -/
def util.ValidateJWT (now : Nat) (t : Token) (secret : String) :
    Except TokenError Claims :=
  match t with
  | .malformed _ => .error .malformed
  | .signed c sc ss =>
    if sc = c ∧ ss = secret then
      if c.expiresAt < now then .error .expired else .ok c
    else .error .signatureInvalid

/-- The `domain.User` entity: id (UUID), email (unique index), name,
password hash (json:"-"), creation and update timestamps. -/
structure User where
  id : String
  email : String
  name : String
  password : Hash
  createdAt : Nat
  updatedAt : Nat
deriving DecidableEq

/-- The `domain.RegisterRequest` shape. -/
structure RegisterRequest where
  email : String
  name : String
  password : String
deriving DecidableEq

/-- The `domain.LoginRequest` shape. -/
structure LoginRequest where
  email : String
  password : String
deriving DecidableEq

/-- The `domain.LoginResponse` shape: token plus sanitized user. -/
structure LoginResponse where
  token : Token
  user : User
deriving DecidableEq

/-- Model of GORM `Create` on the `users` table: the `BeforeCreate` hook
fills a fresh UUID when the id is empty, `autoCreateTime`/`autoUpdateTime`
stamp the row, and the unique index on `email` rejects a duplicate with
`gorm.ErrDuplicatedKey`.  The fresh id and clock are explicit parameters. -/
def dbCreate (db : List User) (freshId : String) (now : Nat) (u : User) :
    Except DbError (List User × User) :=
  let stored : User :=
    { u with id := if u.id = "" then freshId else u.id
           , createdAt := now, updatedAt := now }
  if db.any (fun v => v.email == stored.email) then .error .duplicatedKey
  else .ok (db ++ [stored], stored)

/-- Model of GORM `Where("id = ?", id).First`: the first row with the id,
or `gorm.ErrRecordNotFound`. -/
def dbFindByID (db : List User) (id : String) : Except DbError User :=
  match db.find? (fun u => u.id == id) with
  | some u => .ok u
  | none => .error .recordNotFound

/-- Model of GORM `Where("email = ?", email).First`: the first row with
the email, or `gorm.ErrRecordNotFound`. -/
def dbFindByEmail (db : List User) (email : String) : Except DbError User :=
  match db.find? (fun u => u.email == email) with
  | some u => .ok u
  | none => .error .recordNotFound

/-- `userRepository.Create`: translate `gorm.ErrDuplicatedKey` to the
sentinel `ErrDuplicateEmail`; pass any other storage error through. -/
def repository.Create (db : List User) (freshId : String) (now : Nat)
    (u : User) : Except Err (List User × User) :=
  match dbCreate db freshId now u with
  | .error .duplicatedKey => .error .duplicateEmail
  | .error e => .error (.gormErr e)
  | .ok r => .ok r

/-- `userRepository.GetByID`: translate `gorm.ErrRecordNotFound` to the
sentinel `ErrUserNotFound`; pass any other storage error through. -/
def repository.GetByID (db : List User) (id : String) : Except Err User :=
  match dbFindByID db id with
  | .error .recordNotFound => .error .userNotFound
  | .error e => .error (.gormErr e)
  | .ok u => .ok u

/-- `userRepository.GetByEmail`: translate `gorm.ErrRecordNotFound` to the
sentinel `ErrUserNotFound`; pass any other storage error through. -/
def repository.GetByEmail (db : List User) (email : String) :
    Except Err User :=
  match dbFindByEmail db email with
  | .error .recordNotFound => .error .userNotFound
  | .error e => .error (.gormErr e)
  | .ok u => .ok u

/-- `userService.Register`: hash the password, build the `User`, call the
repository; return the `ErrDuplicateEmail` sentinel untouched, wrap any
other create error, and on success return the stored user with the
password field cleared (the new store is returned alongside). -/
def userService.Register (db : List User) (salt : Nat) (freshId : String)
    (now : Nat) (req : RegisterRequest) : Except Err (List User × User) :=
  let hashedPassword := util.HashPassword salt req.password
  let user : User :=
    { id := "", email := req.email, name := req.name
    , password := hashedPassword, createdAt := 0, updatedAt := 0 }
  match repository.Create db freshId now user with
  | .error e =>
      if e.is .duplicateEmail then .error e
      else .error (.wrapped "failed to create user" e)
  | .ok (db2, stored) => .ok (db2, { stored with password := Hash.cleared })

/-- `userService.Login`: look up by email (`ErrUserNotFound` becomes
`ErrInvalidCredentials`, any other lookup error is wrapped), verify the
password (mismatch is again `ErrInvalidCredentials`), issue a JWT over the
stored id and email, and return it with the password field cleared. -/
def userService.Login (db : List User) (jwtSecret : String) (now : Nat)
    (req : LoginRequest) : Except Err LoginResponse :=
  match repository.GetByEmail db req.email with
  | .error e =>
      if e.is .userNotFound then .error .invalidCredentials
      else .error (.wrapped "failed to get user" e)
  | .ok user =>
      if !(util.CheckPassword req.password user.password) then
        .error .invalidCredentials
      else
        let token := util.GenerateJWT now user.id user.email jwtSecret
        .ok ⟨token, { user with password := Hash.cleared }⟩

/-- `userService.GetUserByID`: repository lookup passed through unchanged
on failure; on success the password field is cleared. -/
def userService.GetUserByID (db : List User) (id : String) :
    Except Err User :=
  match repository.GetByID db id with
  | .error e => .error e
  | .ok user => .ok { user with password := Hash.cleared }

/-- `userService.ValidateToken`: delegate to `util.ValidateJWT` and return
the claims' subject identifier; a decode failure is returned unchanged
(`Err.tokenErr` is the injection of the codec's error into the service's
error type, preserving the kind). -/
def userService.ValidateToken (jwtSecret : String) (now : Nat) (t : Token) :
    Except Err String :=
  match util.ValidateJWT now t jwtSecret with
  | .error te => .error (.tokenErr te)
  | .ok claims => .ok claims.userID

/-- HTTP status rendered by `HTTPHandler.Register` for a service result:
`ErrDuplicateEmail` conflicts (409), any other error is internal (500),
success is 201. -/
def HTTPHandler.registerStatus (r : Except Err (List User × User)) : Nat :=
  match r with
  | .error e => if e.is .duplicateEmail then 409 else 500
  | .ok _ => 201

/-- `HTTPHandler.Register` end to end: a body that fails binding is 400;
otherwise the service result is rendered by `registerStatus`.  The bind
outcome is an explicit parameter. -/
def HTTPHandler.Register (parsed : Except String RegisterRequest)
    (db : List User) (salt : Nat) (freshId : String) (now : Nat) : Nat :=
  match parsed with
  | .error _ => 400
  | .ok req => HTTPHandler.registerStatus
      (userService.Register db salt freshId now req)

/-- HTTP status rendered by `HTTPHandler.Login` for a service result:
`ErrInvalidCredentials` is unauthorized (401), any other error is internal
(500), success is 200. -/
def HTTPHandler.loginStatus (r : Except Err LoginResponse) : Nat :=
  match r with
  | .error e => if e.is .invalidCredentials then 401 else 500
  | .ok _ => 200

/-- `HTTPHandler.Login` end to end: bind failure is 400; otherwise the
service result is rendered by `loginStatus`. -/
def HTTPHandler.Login (parsed : Except String LoginRequest)
    (db : List User) (jwtSecret : String) (now : Nat) : Nat :=
  match parsed with
  | .error _ => 400
  | .ok req => HTTPHandler.loginStatus (userService.Login db jwtSecret now req)

/-- HTTP status rendered by `HTTPHandler.GetUser` for a service result:
`ErrUserNotFound` is 404, any other error is internal (500), success is
200.  (The id is a path parameter, so there is no bind step.) -/
def HTTPHandler.getUserStatus (r : Except Err User) : Nat :=
  match r with
  | .error e => if e.is .userNotFound then 404 else 500
  | .ok _ => 200

/-- `HTTPHandler.GetUser` end to end. -/
def HTTPHandler.GetUser (db : List User) (id : String) : Nat :=
  HTTPHandler.getUserStatus (userService.GetUserByID db id)

/-- The `ValidateTokenResponse` RPC message. -/
structure ValidateTokenResponse where
  valid : Bool
  userId : String
  message : String
deriving DecidableEq

/-- `GRPCHandler.ValidateToken`: a total function into the response
message — the handler never returns a transport-level error.  An empty
wire token (modelled by `Token.malformed ""`) short-circuits with a fixed
message; a service failure yields `valid = false` with the error's text;
success yields `valid = true` with the subject identifier. -/
def GRPCHandler.ValidateToken (jwtSecret : String) (now : Nat) (t : Token) :
    ValidateTokenResponse :=
  if t = Token.malformed "" then ⟨false, "", "token is required"⟩
  else
    match userService.ValidateToken jwtSecret now t with
    | .error e => ⟨false, "", e.message⟩
    | .ok userID => ⟨true, userID, "token is valid"⟩

/-- The `config.Config` record. -/
structure Config where
  databaseURL : String
  jwtSecret : String
  httpPort : String
  grpcPort : String
  environment : String
deriving DecidableEq

/-- `config.getEnv`: the environment value when non-empty, else the
default.  The environment (after any `.env` overlay applied by
`godotenv.Load`) is modelled as a total function from names to values,
with `""` standing for unset, as `os.Getenv` reports it. -/
def config.getEnv (env : String → String) (key defaultValue : String) :
    String :=
  if env key ≠ "" then env key else defaultValue

/-- `config.Load`: build the record from the environment with the source's
defaults, then fail iff the resolved `DATABASE_URL` is empty. -/
def config.Load (env : String → String) : Except String Config :=
  let cfg : Config :=
    { databaseURL := config.getEnv env "DATABASE_URL" ""
    , jwtSecret := config.getEnv env "JWT_SECRET"
        "your-secret-key-change-in-production"
    , httpPort := config.getEnv env "HTTP_PORT" "8080"
    , grpcPort := config.getEnv env "GRPC_PORT" "50051"
    , environment := config.getEnv env "ENVIRONMENT" "development" }
  if cfg.databaseURL = "" then .error "DATABASE_URL is required"
  else .ok cfg

/-- One engine operation together with its explicit nondeterminism
(salt, fresh id, clock, secret), for reasoning about arbitrary
interleavings of calls against the store. -/
inductive Op where
  | register (salt : Nat) (freshId : String) (now : Nat) (req : RegisterRequest)
  | login (jwtSecret : String) (now : Nat) (req : LoginRequest)
  | getById (id : String)
  | validate (jwtSecret : String) (now : Nat) (t : Token)

/-- Effect of one operation on the store: only a successful `Register`
writes; every other operation (and every failed one) leaves it unchanged. -/
def applyOp (db : List User) : Op → List User
  | .register salt freshId now req =>
      match userService.Register db salt freshId now req with
      | .ok (db2, _) => db2
      | .error _ => db
  | .login _ _ _ => db
  | .getById _ => db
  | .validate _ _ _ => db

/-- Effect of a sequence of operations on the store. -/
def applyOps (db : List User) (ops : List Op) : List User :=
  ops.foldl applyOp db

/-- The directory invariant: no two stored accounts share an email. -/
def emailsUnique (db : List User) : Prop :=
  (db.map User.email).Nodup

instance (db : List User) : Decidable (emailsUnique db) :=
  List.nodupDecidable _

/-- A concrete stored account used to instantiate the theorems. -/
def ann : User :=
  ⟨"id-1", "a@x.com", "Ann", util.HashPassword 5 "secret1", 0, 0⟩

/-- A concrete one-account store used to instantiate the theorems. -/
def demoDb : List User := [ann]

/-- A concrete registration request for a fresh email. -/
def reqBob : RegisterRequest := ⟨"b@x.com", "Bob", "pw123"⟩

/-- The row the store holds after registering `reqBob` against `demoDb`
with salt 7, fresh id `id-2`, at instant 10. -/
def bobStored : User :=
  ⟨"id-2", "b@x.com", "Bob", util.HashPassword 7 "pw123", 10, 10⟩

/-- The sanitized account `Register` hands back for `reqBob`. -/
def bobReturned : User := { bobStored with password := Hash.cleared }

/-- A concrete login request matching `ann`'s credentials. -/
def lreqAnn : LoginRequest := ⟨"a@x.com", "secret1"⟩

/-- The response of a successful login of `ann` at instant 20 under
secret `"k"`. -/
def annLoginResp : LoginResponse :=
  ⟨util.GenerateJWT 20 "id-1" "a@x.com" "k",
   { ann with password := Hash.cleared }⟩

theorem repository.GetByEmail_error_eq {db : List User} {em : String}
    {e : Err} (h : repository.GetByEmail db em = .error e) :
    e = .userNotFound := by
  unfold repository.GetByEmail dbFindByEmail at h
  cases hf : db.find? (fun u => u.email == em) with
  | some u => simp [hf] at h
  | none =>
    simp [hf] at h
    exact h.symm

theorem userService.Login_error_eq {db : List User} {k : String} {now : Nat}
    {req : LoginRequest} {e : Err}
    (h : userService.Login db k now req = .error e) :
    e = .invalidCredentials := by
  unfold userService.Login at h
  cases hf : repository.GetByEmail db req.email with
  | error e2 =>
    have he2 := repository.GetByEmail_error_eq hf
    subst he2
    simp [hf, Err.is] at h
    exact h.symm
  | ok user =>
    simp only [hf] at h
    by_cases hc : util.CheckPassword req.password user.password
    · simp [hc] at h
    · simp [hc] at h
      exact h.symm

theorem userService.Login_ok_shape {db : List User} {k : String} {now : Nat}
    {req : LoginRequest} {resp : LoginResponse}
    (h : userService.Login db k now req = .ok resp) :
    ∃ user, repository.GetByEmail db req.email = .ok user ∧
      util.CheckPassword req.password user.password = true ∧
      resp = ⟨util.GenerateJWT now user.id user.email k,
              { user with password := Hash.cleared }⟩ := by
  unfold userService.Login at h
  cases hf : repository.GetByEmail db req.email with
  | error e2 =>
    simp only [hf] at h
    split at h <;> exact Except.noConfusion h
  | ok user =>
    simp only [hf] at h
    by_cases hc : util.CheckPassword req.password user.password
    · simp [hc] at h
      exact ⟨user, rfl, hc, h.symm⟩
    · simp [hc] at h

theorem validateJWT_roundtrip_ok {now now2 : Nat} {s e k : String}
    (h : now2 ≤ now + tokenLifetime) :
    util.ValidateJWT now2 (util.GenerateJWT now s e k) k =
      .ok ⟨s, e, now, now + tokenLifetime⟩ := by
  simp only [util.GenerateJWT, util.ValidateJWT]
  rw [if_pos (by exact ⟨trivial, trivial⟩)]
  rw [if_neg (Nat.not_lt.mpr h)]

theorem userService.Register_duplicate {db : List User} {salt : Nat}
    {freshId : String} {now : Nat} {req : RegisterRequest}
    (h : ∃ u ∈ db, u.email = req.email) :
    userService.Register db salt freshId now req = .error .duplicateEmail := by
  have hany : db.any (fun v => v.email == req.email) = true := by
    rcases h with ⟨u, hu, he⟩
    exact List.any_eq_true.mpr ⟨u, hu, by simpa using he⟩
  unfold userService.Register repository.Create dbCreate
  dsimp only
  simp [hany, Err.is]

theorem userService.Register_ok_shape {db : List User} {salt : Nat}
    {freshId : String} {now : Nat} {req : RegisterRequest}
    {db2 : List User} {u : User}
    (h : userService.Register db salt freshId now req = .ok (db2, u)) :
    db.any (fun v => v.email == req.email) = false ∧
    ∃ stored : User, stored.email = req.email ∧ db2 = db ++ [stored] := by
  unfold userService.Register repository.Create dbCreate at h
  dsimp only at h
  by_cases hany : db.any (fun v => v.email == req.email)
  · simp [hany, Err.is] at h
  · refine ⟨by simpa using hany, ?_⟩
    simp only [Bool.not_eq_true] at hany
    simp only [hany, if_false, Bool.false_eq_true] at h
    simp only [Except.ok.injEq, Prod.mk.injEq] at h
    exact ⟨_, rfl, h.1.symm⟩

theorem applyOp_emailsUnique {db : List User} {op : Op}
    (h : emailsUnique db) : emailsUnique (applyOp db op) := by
  cases op with
  | register salt freshId now req =>
    simp only [applyOp]
    split
    · rename_i db2 u heq
      obtain ⟨hany, stored, hse, hdb2⟩ := userService.Register_ok_shape heq
      subst hdb2
      have hne : req.email ∉ db.map User.email := by
        intro hmem
        rcases List.mem_map.mp hmem with ⟨x, hx, hex⟩
        have hx2 : db.any (fun v => v.email == req.email) = true :=
          List.any_eq_true.mpr ⟨x, hx, by simp [hex]⟩
        rw [hany] at hx2
        exact Bool.noConfusion hx2
      unfold emailsUnique at h ⊢
      rw [List.map_append, List.map_singleton, hse]
      refine List.nodup_append.mpr ⟨h, List.nodup_singleton _, ?_⟩
      intro a ha ha2
      rw [List.mem_singleton] at ha2
      subst ha2
      exact hne ha
    · exact h
  | login jwtSecret now req => exact h
  | getById id => exact h
  | validate jwtSecret now t => exact h

theorem applyOps_emailsUnique {db : List User} {ops : List Op}
    (h : emailsUnique db) : emailsUnique (applyOps db ops) := by
  induction ops generalizing db with
  | nil => exact h
  | cons op rest ih =>
    simp only [applyOps, List.foldl_cons]
    exact ih (applyOp_emailsUnique h)

theorem userService.GetUserByID_notFound {db : List User} {id : String}
    (h : ∀ u ∈ db, u.id ≠ id) :
    userService.GetUserByID db id = .error .userNotFound := by
  have hnone : db.find? (fun u => u.id == id) = none := by
    apply List.find?_eq_none.mpr
    intro x hx
    simpa using h x hx
  unfold userService.GetUserByID repository.GetByID dbFindByID
  simp [hnone]

/-- C5: round-trip of the Credential Codec — verifying a plaintext against
its own hash succeeds for every salt, and hashing the same plaintext under
two distinct salts (two separate calls draw distinct salts) yields two
different stored values. -/
theorem credential_codec_roundtrip (p : String) (salt s1 s2 : Nat) :
    util.CheckPassword p (util.HashPassword salt p) = true ∧
    (s1 ≠ s2 → util.HashPassword s1 p ≠ util.HashPassword s2 p) := by
  constructor
  · simp [util.CheckPassword, util.HashPassword]
  · intro hne hc
    simp only [util.HashPassword, Hash.digestOf.injEq] at hc
    exact hne hc.2.1

theorem credential_codec_roundtrip_witness :
    util.CheckPassword "secret1" (util.HashPassword 5 "secret1") = true ∧
    util.HashPassword 5 "secret1" ≠ util.HashPassword 6 "secret1" :=
  ⟨(credential_codec_roundtrip "secret1" 5 5 6).1,
   (credential_codec_roundtrip "secret1" 5 5 6).2 (by decide)⟩

/-- C8: `Verify` is total — it resolves to a boolean for every input and
returns `false` (never an error) on a malformed stored value, on an
algorithm-parameter mismatch, and on a digest mismatch. -/
theorem checkPassword_total (p raw algo : String) (s d : Nat) :
    util.CheckPassword p (Hash.raw raw) = false ∧
    (algo ≠ "bcrypt" → util.CheckPassword p (Hash.digestOf algo s d) = false) ∧
    (util.digest s p ≠ d → util.CheckPassword p (Hash.digestOf "bcrypt" s d) = false) := by
  refine ⟨rfl, ?_, ?_⟩
  · intro h
    simp [util.CheckPassword, h]
  · intro h
    simp [util.CheckPassword, h]

theorem checkPassword_total_witness :
    util.CheckPassword "pw" (Hash.raw "not-a-hash") = false ∧
    util.CheckPassword "pw" (Hash.digestOf "argon2" 1 2) = false ∧
    util.CheckPassword "pw" (Hash.digestOf "bcrypt" 1 2) = false :=
  ⟨(checkPassword_total "pw" "not-a-hash" "argon2" 1 2).1,
   (checkPassword_total "pw" "not-a-hash" "argon2" 1 2).2.1 (by decide),
   (checkPassword_total "pw" "not-a-hash" "bcrypt" 1 2).2.2 (by decide)⟩

/-- C10: configuration loading fails exactly when `DATABASE_URL` resolves
to the empty string, and an unset or empty `JWT_SECRET` silently defaults
the signing secret to the fixed fallback string. -/
theorem config_load_database_url_required (env : String → String) :
    ((∃ cfg, config.Load env = .ok cfg) ↔ env "DATABASE_URL" ≠ "") ∧
    (∀ cfg, env "JWT_SECRET" = "" → config.Load env = .ok cfg →
      cfg.jwtSecret = "your-secret-key-change-in-production") := by
  constructor
  · by_cases h : env "DATABASE_URL" = ""
    · simp [config.Load, config.getEnv, h]
    · simp [config.Load, config.getEnv, h]
  · intro cfg hsec hok
    by_cases h : env "DATABASE_URL" = ""
    · simp [config.Load, config.getEnv, h] at hok
    · simp [config.Load, config.getEnv, h, hsec] at hok
      simp [← hok]

theorem config_load_database_url_required_witness :
    ((∃ cfg, config.Load (fun k => if k = "DATABASE_URL" then "postgres://db" else "") = .ok cfg) ↔
      (fun k : String => if k = "DATABASE_URL" then "postgres://db" else "") "DATABASE_URL" ≠ "") ∧
    ∀ cfg, config.Load (fun k => if k = "DATABASE_URL" then "postgres://db" else "") = .ok cfg →
      cfg.jwtSecret = "your-secret-key-change-in-production" :=
  ⟨(config_load_database_url_required _).1,
   fun cfg h => (config_load_database_url_required _).2 cfg (by decide) h⟩

/-- C1 (counterexample): the engine's `ValidateToken` does not collapse
decode failures into one single outward error kind — a malformed token and
an expired token yield two distinct error values with two distinct
messages, so a caller can distinguish which decode check failed. -/
theorem validateToken_kinds_distinguishable :
    userService.ValidateToken "k" 0 (Token.malformed "x")
      = .error (Err.tokenErr .malformed) ∧
    userService.ValidateToken "k" (2 * tokenLifetime)
        (util.GenerateJWT 0 "id-1" "a@x.com" "k")
      = .error (Err.tokenErr .expired) ∧
    Err.tokenErr .malformed ≠ Err.tokenErr .expired ∧
    (Err.tokenErr .malformed).message ≠ (Err.tokenErr .expired).message := by
  refine ⟨rfl, by decide, by decide, by decide⟩

/-- C1 (amended): for every token whose decode fails — malformed,
signature-invalid, or expired — `ValidateToken` fails, but it propagates
the decode error unchanged (the kind is preserved) rather than collapsing
the three kinds into a single `Invalid` signal. -/
theorem validateToken_propagates_decode_error (jwtSecret : String)
    (now : Nat) (t : Token) (te : TokenError) :
    util.ValidateJWT now t jwtSecret = .error te →
    userService.ValidateToken jwtSecret now t = .error (.tokenErr te) := by
  intro h
  simp [userService.ValidateToken, h]

theorem validateToken_propagates_decode_error_witness :
    userService.ValidateToken "k" 0 (Token.malformed "x")
      = .error (.tokenErr .malformed) :=
  validateToken_propagates_decode_error "k" 0 (Token.malformed "x")
    .malformed (by decide)

/-- C9: the RPC-transport `ValidateToken` handler is a total function into
the response message (it never returns a transport-level error): the empty
wire token yields `valid = false` with the fixed message, an engine
validation failure yields `valid = false` with the underlying error's
text, and success yields `valid = true` with the subject identifier. -/
theorem grpc_validateToken_always_responds (jwtSecret : String) (now : Nat)
    (t : Token) :
    (GRPCHandler.ValidateToken jwtSecret now (Token.malformed "")
      = ⟨false, "", "token is required"⟩) ∧
    (∀ e, t ≠ Token.malformed "" →
      userService.ValidateToken jwtSecret now t = .error e →
      GRPCHandler.ValidateToken jwtSecret now t = ⟨false, "", e.message⟩) ∧
    (∀ userID, t ≠ Token.malformed "" →
      userService.ValidateToken jwtSecret now t = .ok userID →
      GRPCHandler.ValidateToken jwtSecret now t
        = ⟨true, userID, "token is valid"⟩) := by
  refine ⟨by simp [GRPCHandler.ValidateToken], ?_, ?_⟩
  · intro e hne h
    simp [GRPCHandler.ValidateToken, hne, h]
  · intro userID hne h
    simp [GRPCHandler.ValidateToken, hne, h]

/-- C2: login with an unknown email fails with `InvalidCredentials`, login
with a known email but failing password verification fails with the
identical `InvalidCredentials` kind, and every login failure is that
kind — in particular a plain `NotFound` is never returned from the login
path, so the two causes are indistinguishable to the caller. -/
theorem login_conflates_unknown_email_and_wrong_password
    (db : List User) (jwtSecret : String) (now : Nat) (req : LoginRequest) :
    ((∀ u ∈ db, u.email ≠ req.email) →
      userService.Login db jwtSecret now req = .error .invalidCredentials) ∧
    (∀ u, repository.GetByEmail db req.email = .ok u →
      util.CheckPassword req.password u.password = false →
      userService.Login db jwtSecret now req = .error .invalidCredentials) ∧
    (∀ e, userService.Login db jwtSecret now req = .error e →
      e = .invalidCredentials) := by
  refine ⟨?_, ?_, fun e h => userService.Login_error_eq h⟩
  · intro hall
    have hnone : db.find? (fun u => u.email == req.email) = none := by
      apply List.find?_eq_none.mpr
      intro x hx
      simpa using hall x hx
    have hr : repository.GetByEmail db req.email = .error .userNotFound := by
      unfold repository.GetByEmail dbFindByEmail
      simp [hnone]
    simp [userService.Login, hr, Err.is]
  · intro u hu hc
    simp [userService.Login, hu, hc]

theorem login_conflates_unknown_email_and_wrong_password_witness :
    userService.Login demoDb "k" 0 ⟨"nobody@x.com", "pw"⟩
      = .error .invalidCredentials ∧
    userService.Login demoDb "k" 0 ⟨"a@x.com", "wrong"⟩
      = .error .invalidCredentials :=
  ⟨(login_conflates_unknown_email_and_wrong_password demoDb "k" 0
      ⟨"nobody@x.com", "pw"⟩).1 (by decide),
   (login_conflates_unknown_email_and_wrong_password demoDb "k" 0
      ⟨"a@x.com", "wrong"⟩).2.1 ann (by decide) (by decide)⟩

/-- C3: every successful `Register`, `Login`, or `GetByID` returns the
account with the password-hash field cleared — the stored credential hash
never crosses these operations' return boundaries. -/
theorem engine_success_clears_password_hash
    (db db2 : List User) (salt : Nat) (freshId : String) (now : Nat)
    (req : RegisterRequest) (lreq : LoginRequest) (jwtSecret id : String)
    (u v : User) (resp : LoginResponse) :
    (userService.Register db salt freshId now req = .ok (db2, u) →
      u.password = Hash.cleared) ∧
    (userService.Login db jwtSecret now lreq = .ok resp →
      resp.user.password = Hash.cleared) ∧
    (userService.GetUserByID db id = .ok v → v.password = Hash.cleared) := by
  refine ⟨?_, ?_, ?_⟩
  · intro h
    unfold userService.Register at h
    dsimp only at h
    split at h
    · split at h <;> exact Except.noConfusion h
    · simp only [Except.ok.injEq, Prod.mk.injEq] at h
      obtain ⟨-, h2⟩ := h
      subst h2
      rfl
  · intro h
    obtain ⟨user, -, -, hr⟩ := userService.Login_ok_shape h
    subst hr
    rfl
  · intro h
    unfold userService.GetUserByID at h
    split at h
    · exact Except.noConfusion h
    · simp only [Except.ok.injEq] at h
      subst h
      rfl

theorem engine_success_clears_password_hash_witness :
    bobReturned.password = Hash.cleared ∧
    annLoginResp.user.password = Hash.cleared ∧
    ({ ann with password := Hash.cleared } : User).password = Hash.cleared :=
  ⟨(engine_success_clears_password_hash demoDb (demoDb ++ [bobStored]) 7
      "id-2" 10 reqBob lreqAnn "k" "id-1" bobReturned
      ({ ann with password := Hash.cleared }) annLoginResp).1 (by decide),
   (engine_success_clears_password_hash demoDb (demoDb ++ [bobStored]) 7
      "id-2" 20 reqBob lreqAnn "k" "id-1" bobReturned
      ({ ann with password := Hash.cleared }) annLoginResp).2.1 (by decide),
   (engine_success_clears_password_hash demoDb (demoDb ++ [bobStored]) 7
      "id-2" 10 reqBob lreqAnn "k" "id-1" bobReturned
      ({ ann with password := Hash.cleared }) annLoginResp).2.2 (by decide)⟩

/-- C4: round-trip of the Token Codec — decoding an issued token under the
issuing secret within its lifetime recovers exactly the subject identifier
(indeed the full claims); decoding under a different secret fails with
`SignatureInvalid`; decoding after the expiry has elapsed fails with
`Expired`; and `ValidateToken` applied to the token returned by a
successful `Login` yields the logged-in account's identifier. -/
theorem token_codec_roundtrip (s e k k2 : String) (now now2 : Nat)
    (db : List User) (req : LoginRequest) (resp : LoginResponse) :
    (now2 ≤ now + tokenLifetime →
      util.ValidateJWT now2 (util.GenerateJWT now s e k) k
        = .ok ⟨s, e, now, now + tokenLifetime⟩) ∧
    (k2 ≠ k →
      util.ValidateJWT now2 (util.GenerateJWT now s e k) k2
        = .error .signatureInvalid) ∧
    (now + tokenLifetime < now2 →
      util.ValidateJWT now2 (util.GenerateJWT now s e k) k
        = .error .expired) ∧
    (userService.Login db k now req = .ok resp →
      now2 ≤ now + tokenLifetime →
      userService.ValidateToken k now2 resp.token = .ok resp.user.id) := by
  refine ⟨fun h => validateJWT_roundtrip_ok h, ?_, ?_, ?_⟩
  · intro hk2
    simp only [util.GenerateJWT, util.ValidateJWT]
    rw [if_neg (by exact fun hh => hk2 hh.2.symm)]
  · intro h
    simp only [util.GenerateJWT, util.ValidateJWT]
    rw [if_pos (by exact ⟨trivial, trivial⟩)]
    rw [if_pos h]
  · intro hok hle
    obtain ⟨user, -, -, hr⟩ := userService.Login_ok_shape hok
    subst hr
    simp [userService.ValidateToken, validateJWT_roundtrip_ok hle]

theorem token_codec_roundtrip_witness :
    util.ValidateJWT 30 (util.GenerateJWT 20 "id-1" "a@x.com" "k") "k"
      = .ok ⟨"id-1", "a@x.com", 20, 20 + tokenLifetime⟩ ∧
    util.ValidateJWT 30 (util.GenerateJWT 20 "id-1" "a@x.com" "k") "k2"
      = .error .signatureInvalid ∧
    util.ValidateJWT (3 * tokenLifetime)
        (util.GenerateJWT 20 "id-1" "a@x.com" "k") "k"
      = .error .expired ∧
    userService.ValidateToken "k" 30 annLoginResp.token
      = .ok annLoginResp.user.id :=
  ⟨(token_codec_roundtrip "id-1" "a@x.com" "k" "k2" 20 30 demoDb lreqAnn
      annLoginResp).1 (by decide),
   (token_codec_roundtrip "id-1" "a@x.com" "k" "k2" 20 30 demoDb lreqAnn
      annLoginResp).2.1 (by decide),
   (token_codec_roundtrip "id-1" "a@x.com" "k" "k2" 20 (3 * tokenLifetime)
      demoDb lreqAnn annLoginResp).2.2.1 (by decide),
   (token_codec_roundtrip "id-1" "a@x.com" "k" "k2" 20 30 demoDb lreqAnn
      annLoginResp).2.2.2 (by decide) (by decide)⟩

theorem grpc_validateToken_always_responds_witness :
    GRPCHandler.ValidateToken "k" 0 (Token.malformed "")
      = ⟨false, "", "token is required"⟩ ∧
    GRPCHandler.ValidateToken "k" 0 (Token.malformed "x")
      = ⟨false, "", "token is malformed"⟩ ∧
    GRPCHandler.ValidateToken "k" 1 (util.GenerateJWT 1 "id-1" "a@x.com" "k")
      = ⟨true, "id-1", "token is valid"⟩ :=
  ⟨(grpc_validateToken_always_responds "k" 0 (Token.malformed "x")).1,
   (grpc_validateToken_always_responds "k" 0 (Token.malformed "x")).2.1
     (.tokenErr .malformed) (by decide) (by decide),
   (grpc_validateToken_always_responds "k" 1
       (util.GenerateJWT 1 "id-1" "a@x.com" "k")).2.2
     "id-1" (by decide) (by decide)⟩

/-- C6: email uniqueness — a `Register` whose email is already present in
the directory fails with the `DuplicateEmail` kind (a bare sentinel value
carrying no data of the existing account), and the uniqueness invariant is
preserved by every sequence of operations: no two stored accounts ever
share an email. -/
theorem register_duplicate_email_uniqueness
    (db : List User) (salt : Nat) (freshId : String) (now : Nat)
    (req : RegisterRequest) (ops : List Op) :
    ((∃ u ∈ db, u.email = req.email) →
      userService.Register db salt freshId now req
        = .error .duplicateEmail) ∧
    (emailsUnique db → emailsUnique (applyOps db ops)) :=
  ⟨fun h => userService.Register_duplicate h,
   fun h => applyOps_emailsUnique h⟩

theorem register_duplicate_email_uniqueness_witness :
    userService.Register demoDb 7 "id-2" 10 ⟨"a@x.com", "Eve", "pw"⟩
      = .error .duplicateEmail ∧
    emailsUnique (applyOps demoDb [Op.register 7 "id-2" 10 reqBob]) :=
  ⟨(register_duplicate_email_uniqueness demoDb 7 "id-2" 10
      ⟨"a@x.com", "Eve", "pw"⟩ []).1 (by decide),
   (register_duplicate_email_uniqueness demoDb 7 "id-2" 10 reqBob
      [Op.register 7 "id-2" 10 reqBob]).2 (by decide)⟩

/-- C7: façade error translation — a binding failure renders 400; a
`DuplicateEmail` registration renders 409; a failed login renders 401
(every login failure carries the `InvalidCredentials` kind); a lookup of
an unknown id renders 404; and each handler renders 500 for every error
other than the kind it recognises. -/
theorem facade_status_translation
    (db : List User) (salt : Nat) (freshId : String) (now : Nat)
    (jwtSecret msg id : String) (req : RegisterRequest)
    (lreq : LoginRequest) (e : Err) :
    (HTTPHandler.Register (.error msg) db salt freshId now = 400) ∧
    (HTTPHandler.Login (.error msg) db jwtSecret now = 400) ∧
    ((∃ u ∈ db, u.email = req.email) →
      HTTPHandler.Register (.ok req) db salt freshId now = 409) ∧
    (∀ e2, userService.Login db jwtSecret now lreq = .error e2 →
      HTTPHandler.Login (.ok lreq) db jwtSecret now = 401) ∧
    ((∀ u ∈ db, u.id ≠ id) → HTTPHandler.GetUser db id = 404) ∧
    (e.is .duplicateEmail = false →
      HTTPHandler.registerStatus (.error e) = 500) ∧
    (e.is .invalidCredentials = false →
      HTTPHandler.loginStatus (.error e) = 500) ∧
    (e.is .userNotFound = false →
      HTTPHandler.getUserStatus (.error e) = 500) := by
  refine ⟨rfl, rfl, ?_, ?_, ?_, ?_, ?_, ?_⟩
  · intro h
    simp [HTTPHandler.Register, HTTPHandler.registerStatus,
          userService.Register_duplicate h, Err.is]
  · intro e2 h
    have he2 := userService.Login_error_eq h
    subst he2
    simp [HTTPHandler.Login, HTTPHandler.loginStatus, h, Err.is]
  · intro h
    simp [HTTPHandler.GetUser, HTTPHandler.getUserStatus,
          userService.GetUserByID_notFound h, Err.is]
  · intro h
    simp [HTTPHandler.registerStatus, h]
  · intro h
    simp [HTTPHandler.loginStatus, h]
  · intro h
    simp [HTTPHandler.getUserStatus, h]

theorem facade_status_translation_witness :
    HTTPHandler.Register (.error "bad json") demoDb 7 "id-2" 10 = 400 ∧
    HTTPHandler.Login (.error "bad json") demoDb "k" 0 = 400 ∧
    HTTPHandler.Register (.ok ⟨"a@x.com", "Eve", "pw"⟩) demoDb 7 "id-2" 10
      = 409 ∧
    HTTPHandler.Login (.ok ⟨"a@x.com", "wrong"⟩) demoDb "k" 0 = 401 ∧
    HTTPHandler.GetUser demoDb "id-404" = 404 ∧
    HTTPHandler.registerStatus
      (.error (.wrapped "failed to create user" (.gormErr .recordNotFound)))
      = 500 ∧
    HTTPHandler.loginStatus
      (.error (.wrapped "failed to get user" (.gormErr .duplicatedKey)))
      = 500 ∧
    HTTPHandler.getUserStatus (.error (.gormErr .duplicatedKey)) = 500 :=
  ⟨(facade_status_translation demoDb 7 "id-2" 10 "k" "bad json" "id-404"
      reqBob lreqAnn .duplicateEmail).1,
   (facade_status_translation demoDb 7 "id-2" 10 "k" "bad json" "id-404"
      reqBob lreqAnn .duplicateEmail).2.1,
   (facade_status_translation demoDb 7 "id-2" 10 "k" "bad json" "id-404"
      ⟨"a@x.com", "Eve", "pw"⟩ lreqAnn .duplicateEmail).2.2.1 (by decide),
   (facade_status_translation demoDb 7 "id-2" 10 "k" "bad json" "id-404"
      reqBob ⟨"a@x.com", "wrong"⟩ .duplicateEmail).2.2.2.1
     .invalidCredentials (by decide),
   (facade_status_translation demoDb 7 "id-2" 10 "k" "bad json" "id-404"
      reqBob lreqAnn .duplicateEmail).2.2.2.2.1 (by decide),
   (facade_status_translation demoDb 7 "id-2" 10 "k" "bad json" "id-404"
      reqBob lreqAnn
      (.wrapped "failed to create user" (.gormErr .recordNotFound))).2.2.2.2.2.1
     (by decide),
   (facade_status_translation demoDb 7 "id-2" 10 "k" "bad json" "id-404"
      reqBob lreqAnn
      (.wrapped "failed to get user" (.gormErr .duplicatedKey))).2.2.2.2.2.2.1
     (by decide),
   (facade_status_translation demoDb 7 "id-2" 10 "k" "bad json" "id-404"
      reqBob lreqAnn (.gormErr .duplicatedKey)).2.2.2.2.2.2.2 (by decide)⟩

end GoLearn
